import Mathlib

/-!
Shallow embedding of `proxy_admin.py` from django-proxy-admin.

The module defines `ParentModelAdmin`, a Django `ModelAdmin` subclass that
dispatches admin views (`add_view`, `change_view`, `changeform_view`,
`subclass_view`, `add_type_view`) to per-type child admins, keyed by a
type-discriminator field.

Modelling choices:
* Model classes and admin classes/instances are identified by `Nat` ids.
* Type values (the discriminator) are `Int`, since the source coerces the
  query parameter with `int(...)` and object fields are compared as ints.
* Exceptions are an explicit `PyExn` type; fallible operations return
  `Except PyExn _`, and operations that mutate the admin object return
  `ParentAdmin × Option PyExn` (the state as mutated so far, plus the
  exception that propagated, if any), mirroring Python semantics where an
  exception leaves earlier mutations in place.
* Framework behaviour reached from the source (database lookup, permission
  check, URL resolution, child-admin view bodies) is represented
  symbolically: database and resolver are function-valued fields of the
  state, and a delegated view call is a `Response` constructor recording
  the receiver and the exact arguments passed.
-/

namespace ProxyAdmin

/-- Exceptions raisable by statements of `proxy_admin.py` (both the ones it
raises explicitly and the ones its expressions can raise). -/
inductive PyExn where
  | http404 (msg : String)
  | permissionDenied
  | runtimeError (msg : String)
  | notImplementedError (msg : String)
  | typeError (msg : String)
  | keyError
  | valueError
  | indexError
  | attributeError
  | alreadyRegistered (msg : String)
  deriving DecidableEq, Repr

/-- The class of an exception, forgetting its message. -/
inductive ExnKind where
  | http404
  | permissionDenied
  | runtimeError
  | notImplementedError
  | typeError
  | keyError
  | valueError
  | indexError
  | attributeError
  | alreadyRegistered
  deriving DecidableEq, Repr

def PyExn.kind : PyExn → ExnKind
  | .http404 _ => .http404
  | .permissionDenied => .permissionDenied
  | .runtimeError _ => .runtimeError
  | .notImplementedError _ => .notImplementedError
  | .typeError _ => .typeError
  | .keyError => .keyError
  | .valueError => .valueError
  | .indexError => .indexError
  | .attributeError => .attributeError
  | .alreadyRegistered _ => .alreadyRegistered

/-- The parts of a Django request the module reads. `hasAddPermission`
stands for the framework call `self.has_add_permission(request)`. -/
structure Request where
  /-- `request.GET.get('type')`: the raw query parameter, when present. -/
  typeParam : Option String
  /-- result of `self.has_add_permission(request)` for this request -/
  hasAddPermission : Bool
  /-- `request.META[QUERY_STRING]` (always present under WSGI) -/
  queryString : String
  /-- `request.method == POST` -/
  isPost : Bool
  /-- the `type` choice carried by the POST body, when one parses -/
  postType : Option Int
  deriving DecidableEq, Repr

/-- Responses: either a delegated framework call, recorded symbolically with
the exact arguments the source passes, or a concrete redirect/render. -/
inductive Response where
  /-- `real_admin.add_view(request, form_url, extra_context)` -/
  | childAddView (adm : Nat) (req : Request) (form_url : String) (extra_context : Option Nat)
  /-- `real_admin.change_view(request, object_id, *args, **kwargs)`;
  `varargs` stands for the forwarded `*args, **kwargs`. -/
  | childChangeView (adm : Nat) (req : Request) (object_id : Int) (varargs : Nat)
  /-- `real_admin.changeform_view(request, object_id, *args, **kwargs)` -/
  | childChangeformView (adm : Nat) (req : Request) (object_id : Int) (varargs : Nat)
  /-- `super().changeform_view(request, object_id, *args, **kwargs)` -/
  | superChangeformView (req : Request) (varargs : Nat)
  /-- `HttpResponseRedirect(location)` -/
  | redirect (location : String)
  /-- the rendered add-type form (`render_add_type_form`) -/
  | renderedAddTypeForm (req : Request) (choices : List (Int × String)) (form_url : String)
  /-- `resolvermatch.func(request, *args, **kwargs)` after resolving `path`
  against the child admin's urls -/
  | dispatched (adm : Nat) (path : String) (req : Request)
  deriving DecidableEq, Repr

/-- How `getattr(obj, self.type_field_name)` behaves, determined by the
class attribute `type_field_name`. -/
inductive TypeFieldSpec where
  /-- `type_field_name` names an existing field: `getattr` returns the
  discriminator value. -/
  | valid
  /-- `type_field_name` is a string that is not an attribute of the
  object: `getattr` raises `AttributeError`, which the source catches and
  re-raises as `NotImplementedError`. -/
  | missingAttr
  /-- `type_field_name` is left at its `None` default: `getattr(obj, None)`
  raises `TypeError` (attribute name must be string), which the
  `except AttributeError` clause does not catch. -/
  | noneName
  deriving DecidableEq, Repr

/-- State of a `ParentModelAdmin` instance together with the framework
state it reads (parent site registry, database, resolver). -/
structure ParentAdmin where
  /-- class attribute `child_models`: `None`, or the sequence of
  `(type value, (Model, Admin))` pairs the source iterates over -/
  child_models : Option (List (Int × Nat × Nat))
  /-- behaviour of `getattr(obj, self.type_field_name)` -/
  type_field_spec : TypeFieldSpec
  /-- `self.base_model.objects.get(id=i)`: `some t` means the object exists
  and its discriminator field holds `t`; `none` means `DoesNotExist` -/
  base_model_db : Int → Option Int
  /-- `issubclass(m, self.base_model)` -/
  is_base_subclass : Nat → Bool
  /-- `issubclass(m, admin.ModelAdmin)` -/
  is_admin_subclass : Nat → Bool
  /-- `model._meta.verbose_name` -/
  verbose_name : Nat → String
  /-- `self.admin_site._registry`: model to admin instance. The site
  instantiates the registered admin class, so an admin instance is
  identified here with the class it was created from. -/
  site_registry : List (Nat × Nat)
  /-- `self._child_admin_site._registry` (fresh empty site at `__init__`) -/
  _child_admin_site_registry : List (Nat × Nat)
  /-- `self._child_models`: assigned only by `_lazy_setup`; `none` models
  the attribute not existing yet (reading it raises `AttributeError`) -/
  _child_models : Option (List (Int × Nat × Nat))
  /-- `self._is_setup` -/
  _is_setup : Bool
  /-- whether `RegexURLResolver(..., adm.urls).resolve(path)` matches -/
  resolve : Nat → String → Bool

/-- `dict` built from a pair sequence, then updated with `upd` (later keys
overwrite earlier ones); represented so that `List.lookup` finds the
surviving binding. -/
def dict_update {α β : Type} [BEq α] (base upd : List (α × β)) : List (α × β) :=
  upd.foldl (fun d kv => (d.filter (fun p => p.1 != kv.1)) ++ [kv]) base

/-- Python `dict(pairs)`. -/
def dict_of {α β : Type} [BEq α] (l : List (α × β)) : List (α × β) :=
  dict_update [] l

/-- Digit string to number: `none` when the list is empty or holds a
non-digit character. -/
def parse_digits (l : List Char) : Option Nat :=
  if l.isEmpty then none
  else l.foldl (fun acc c =>
    match acc with
    | none => none
    | some n => if c.isDigit then some (n * 10 + (c.toNat - 48)) else none) (some 0)

/-- The characters `str.strip()` (and hence `int(s)`) discards at both
ends of a string. -/
def is_py_space (c : Char) : Bool :=
  c = ' ' || c = '\t' || c = '\n' || c = '\r' || c = '\x0b' || c = '\x0c'

/-- Strip `is_py_space` characters from both ends. -/
def strip_py_space (l : List Char) : List Char :=
  ((l.dropWhile is_py_space).reverse.dropWhile is_py_space).reverse

/-- Python `int(s)` / `long(s)` on a string (base 10): surrounding
whitespace is stripped, then an optional single `+` or `-` sign directly
precedes the digits; anything else raises `ValueError` (modelled as
`none`). -/
def str_to_int (s : String) : Option Int :=
  match strip_py_space s.data with
  | '-' :: rest => (parse_digits rest).map (fun n => -(n : Int))
  | '+' :: rest => (parse_digits rest).map (fun n => ((n : Nat) : Int))
  | l => (parse_digits l).map (fun n => ((n : Nat) : Int))

/-- `int(request.GET.get('type', 0))`: absent parameter defaults to `0`;
a malformed parameter raises `ValueError`. -/
def get_type_param (req : Request) : Except PyExn Int :=
  match req.typeParam with
  | none => .ok 0
  | some s =>
    match str_to_int s with
    | some n => .ok n
    | none => .error .valueError

/-- `ParentModelAdmin.get_child_models`. -/
def get_child_models (a : ParentAdmin) : Except PyExn (List (Int × Nat × Nat)) :=
  match a.child_models with
  | none => .error (.notImplementedError "Implement get_child_models() or child_models")
  | some cm => .ok cm

/-- The framework call `AdminSite.register(model, model_admin)`: raises
`AlreadyRegistered` when the model is already in the registry, otherwise
stores the admin (instance identified with its class, see
`site_registry`). -/
def site_register (reg : List (Nat × Nat)) (model model_admin : Nat) :
    Except PyExn (List (Nat × Nat)) :=
  if (reg.lookup model).isSome then
    .error (.alreadyRegistered ("The model " ++ toString model ++ " is already registered"))
  else
    .ok (reg ++ [(model, model_admin)])

/-- `ParentModelAdmin.register_child`. The `RuntimeError` and the two
`TypeError`s are raised before any mutation, so on error the state is
returned unchanged; the final statement is the framework registration,
which can itself raise `AlreadyRegistered`. (Message wording avoids the
apostrophe of the source string.) -/
def register_child (a : ParentAdmin) (model model_admin : Nat) :
    ParentAdmin × Option PyExn :=
  if a._is_setup then
    (a, some (.runtimeError "The admin model cant be registered anymore at this point."))
  else if ¬ a.is_base_subclass model then
    (a, some (.typeError (toString model ++ " should be a subclass of the base model")))
  else if ¬ a.is_admin_subclass model_admin then
    (a, some (.typeError (toString model_admin ++ " should be a subclass of ModelAdmin")))
  else
    match site_register a._child_admin_site_registry model model_admin with
    | .error e => (a, some e)
    | .ok reg => ({ a with _child_admin_site_registry := reg }, none)

/-- The `for _, (Model, Admin) in child_models: self.register_child(...)`
loop of `_lazy_setup`: threads the state, stops at the first exception. -/
def register_children (a : ParentAdmin) :
    List (Int × Nat × Nat) → ParentAdmin × Option PyExn
  | [] => (a, none)
  | (_, model, adm) :: rest =>
    match register_child a model adm with
    | (a', none) => register_children a' rest
    | (a', some e) => (a', some e)

/-- `ParentModelAdmin._lazy_setup`. -/
def _lazy_setup (a : ParentAdmin) : ParentAdmin × Option PyExn :=
  if a._is_setup then (a, none)
  else
    match get_child_models a with
    | .error e => (a, some e)
    | .ok cm =>
      match register_children a cm with
      | (a', some e) => (a', some e)
      | (a', none) =>
        ({ a' with
            _child_models := some (dict_of cm),
            _child_admin_site_registry := dict_update a'.site_registry a'._child_admin_site_registry,
            _is_setup := true }, none)

/-- `ParentModelAdmin.get_child_type_choices`. -/
def get_child_type_choices (a : ParentAdmin) : Except PyExn (List (Int × String)) :=
  match get_child_models a with
  | .error e => .error e
  | .ok cm => .ok (cm.map (fun kv => (kv.1, a.verbose_name kv.2.1)))

/-- `ParentModelAdmin._get_real_admin`. Note: `self._child_models` is a
dict, so a missing key raises `KeyError`; the source's `except IndexError`
clause does not match it and the intended `Http404` is never raised. -/
def _get_real_admin (a : ParentAdmin) (type_value : Int) : Except PyExn Nat :=
  match a._child_models with
  | none => .error .attributeError
  | some d =>
    match d.lookup type_value with
    | none => .error .keyError
    | some md =>
      match a._child_admin_site_registry.lookup md.1 with
      | none => .error (.runtimeError
          ("No child admin site was registered for a " ++ toString md.1 ++ " model."))
      | some adm => .ok adm

/-- `ParentModelAdmin._get_type_by_object_id`. A missing object raises
`Http404`; then `getattr(obj, self.type_field_name)` behaves per
`TypeFieldSpec`: only `AttributeError` is caught and re-raised as
`NotImplementedError`, while the `TypeError` from a `None` field name
propagates. -/
def _get_type_by_object_id (a : ParentAdmin) (object_id : Int) : Except PyExn Int :=
  match a.base_model_db object_id with
  | none => .error (.http404 "")
  | some t =>
    match a.type_field_spec with
    | .valid => .ok t
    | .missingAttr => .error (.notImplementedError "Implement type_field_name")
    | .noneName => .error (.typeError "attribute name must be string")

/-- `urlencode({'type': type_value})`. -/
def urlencode_type (type_value : Int) : String := "type=" ++ toString type_value

/-- Modelled from the spec: the framework helper
`django.contrib.admin.templatetags.admin_urls.add_preserved_filters` is not
part of this repository; per the spec the form url is "extended to preserve
the type filter", modelled as an injective pairing of the url with the
urlencoded filters. -/
def add_preserved_filters (preserved_filters : String) (form_url : String) : String :=
  form_url ++ "?_changelist_filters=" ++ preserved_filters

/-- `extra_qs` of `add_type_view`: `&` plus the query string when it is
non-empty, else empty. -/
def extra_qs (req : Request) : String :=
  if req.queryString ≠ "" then "&" ++ req.queryString else ""

/-- `form.is_valid()` for the bound `ProxyChoiceForm`: the request is a
POST whose submitted `type` is one of the offered choices. -/
def form_valid (req : Request) (choices : List (Int × String)) : Bool :=
  req.isPost &&
    (match req.postType with
     | some t => choices.any (fun c => c.1 == t)
     | none => false)

/-- `ParentModelAdmin.add_type_view`. The `choices.head?` match models
`initial={'type': choices[0][0]}`, which raises `IndexError` on an empty
choice list. -/
def add_type_view (a : ParentAdmin) (req : Request) (form_url : String) :
    Except PyExn Response :=
  if ¬ req.hasAddPermission then .error .permissionDenied
  else
    match get_child_type_choices a with
    | .error e => .error e
    | .ok choices =>
      if choices.length == 1 then
        .ok (.redirect ("?type=" ++ toString choices.headI.1 ++ extra_qs req))
      else
        match choices.head? with
        | none => .error .indexError
        | some _ =>
          if form_valid req choices then
            .ok (.redirect ("?type=" ++ toString (req.postType.getD 0) ++ extra_qs req))
          else
            .ok (.renderedAddTypeForm req choices form_url)

/-- `ParentModelAdmin.add_view`. -/
def add_view (a : ParentAdmin) (req : Request) (form_url : String)
    (extra_context : Option Nat) : Except PyExn Response :=
  match get_type_param req with
  | .error e => .error e
  | .ok type_value =>
    if type_value == 0 then
      add_type_view a req ""
    else
      match _get_real_admin a type_value with
      | .error e => .error e
      | .ok real_admin =>
        .ok (.childAddView real_admin req
          (add_preserved_filters (urlencode_type type_value) form_url) extra_context)

/-- `ParentModelAdmin.change_view`. -/
def change_view (a : ParentAdmin) (req : Request) (object_id : Int) (varargs : Nat) :
    Except PyExn Response :=
  match _get_type_by_object_id a object_id with
  | .error e => .error e
  | .ok t =>
    match _get_real_admin a t with
    | .error e => .error e
    | .ok real_admin => .ok (.childChangeView real_admin req object_id varargs)

/-- `ParentModelAdmin.changeform_view` (Django >= 1.7): a present (URL-captured,
hence truthy) `object_id` dispatches like `change_view`; `None` falls back to
the superclass. -/
def changeform_view (a : ParentAdmin) (req : Request) (object_id : Option Int)
    (varargs : Nat) : Except PyExn Response :=
  match object_id with
  | some oid =>
    match _get_type_by_object_id a oid with
    | .error e => .error e
    | .ok t =>
      match _get_real_admin a t with
      | .error e => .error e
      | .ok real_admin => .ok (.childChangeformView real_admin req oid varargs)
  | none => .ok (.superChangeformView req varargs)

def take_until_slash : List Char → List Char
  | [] => []
  | c :: rest => if c = '/' then [] else c :: take_until_slash rest

/-- `path[0:pos]` for `pos = path.find('/')`, or the whole path when there
is no slash. -/
def path_head (path : String) : String :=
  String.mk (take_until_slash path.data)

/-- The `if not type:` block of `subclass_view`: when the query type is
zero, parse the path head as an object id (`ValueError` becomes `Http404`)
and look the type up on that object; otherwise keep the query type. -/
def subclass_type (a : ParentAdmin) (t0 : Int) (path : String) :
    Except PyExn Int :=
  if t0 == 0 then
    match str_to_int (path_head path) with
    | none => .error (.http404
        ("No type parameter, unable to find admin subclass for path " ++ path ++ "."))
    | some object_id => _get_type_by_object_id a object_id
  else .ok t0

/-- `ParentModelAdmin.subclass_view`. -/
def subclass_view (a : ParentAdmin) (req : Request) (path : String) :
    Except PyExn Response :=
  match get_type_param req with
  | .error e => .error e
  | .ok t0 =>
    match subclass_type a t0 path with
    | .error e => .error e
    | .ok t =>
      match _get_real_admin a t with
      | .error e => .error e
      | .ok real_admin =>
        if a.resolve real_admin path then .ok (.dispatched real_admin path req)
        else .error (.http404 ("No match for path " ++ path ++ " in admin subclass."))

/-! Concrete sample states used by witnesses. -/

/-- A fully set-up admin with two child types: type 7 maps to model 3
(admin 4), type 8 to model 5 (admin 6). Objects: id 1 has type 7, id 2
has type 8, id 3 has type 99 (no child registered for 99), other ids do
not exist. -/
def sampleAdmin : ParentAdmin where
  child_models := some [(7, 3, 4), (8, 5, 6)]
  type_field_spec := .valid
  base_model_db := fun i =>
    if i == 1 then some 7 else if i == 2 then some 8 else
    if i == 3 then some 99 else none
  is_base_subclass := fun _ => true
  is_admin_subclass := fun _ => true
  verbose_name := fun m => "model " ++ toString m
  site_registry := []
  _child_admin_site_registry := [(3, 4), (5, 6)]
  _child_models := some [(7, 3, 4), (8, 5, 6)]
  _is_setup := true
  resolve := fun _ _ => true

/-- A plain GET request with add permission and an empty query string. -/
def sampleReq : Request where
  typeParam := none
  hasAddPermission := true
  queryString := ""
  isPost := false
  postType := none

/-- Like `sampleAdmin`, but before `_lazy_setup` ran. -/
def freshAdmin : ParentAdmin :=
  { sampleAdmin with
      _child_admin_site_registry := []
      _child_models := none
      _is_setup := false }

/-- Like `sampleAdmin`, but with no admin registered for model 3. -/
def unregAdmin : ParentAdmin :=
  { sampleAdmin with _child_admin_site_registry := [(5, 6)] }

/-- Like `sampleAdmin`, but with the `child_models` attribute left `None`. -/
def noChildrenAdmin : ParentAdmin :=
  { sampleAdmin with child_models := none }

/-- Like `sampleAdmin`, but with a single child type. -/
def singleChildAdmin : ParentAdmin :=
  { sampleAdmin with child_models := some [(7, 3, 4)] }

/-! Theorems about the embedded operations. -/

/-- Claim C1: when a base-model object with id `object_id` exists and its
type-discriminator field holds `t`, and the child admin selected for `t`
is `adm`, `change_view` returns exactly `adm`'s `change_view` called with
the same request, object id and remaining arguments. -/
theorem change_view_delegates_to_child (a : ParentAdmin) (req : Request)
    (object_id t : Int) (adm varargs : Nat)
    (hobj : a.base_model_db object_id = some t)
    (hfield : a.type_field_spec = .valid)
    (hadm : _get_real_admin a t = .ok adm) :
    change_view a req object_id varargs =
      .ok (.childChangeView adm req object_id varargs) := by
  simp only [change_view, _get_type_by_object_id, hobj, hfield, if_true, hadm]

theorem change_view_delegates_to_child_witness :
    change_view sampleAdmin sampleReq 1 0 =
      .ok (.childChangeView 4 sampleReq 1 0) :=
  change_view_delegates_to_child sampleAdmin sampleReq 1 7 4 0 rfl rfl rfl

/-- Claim C2: when the `type` query parameter parses to a nonzero `t` whose
child admin is `adm`, `add_view` returns exactly `adm`'s `add_view` on the
same request and extra context, with `form_url` extended to preserve the
type filter; in particular the type-selection form is not rendered. -/
theorem add_view_delegates_to_child (a : ParentAdmin) (req : Request)
    (form_url : String) (extra_context : Option Nat) (t : Int) (adm : Nat)
    (hparse : get_type_param req = .ok t)
    (ht : t ≠ 0)
    (hadm : _get_real_admin a t = .ok adm) :
    add_view a req form_url extra_context =
      .ok (.childAddView adm req
        (add_preserved_filters (urlencode_type t) form_url) extra_context) := by
  have ht' : (t == 0) = false := by simpa using ht
  simp only [add_view, hparse, ht', Bool.false_eq_true, if_false, hadm]

theorem add_view_delegates_to_child_witness :
    add_view sampleAdmin { sampleReq with typeParam := some "7" } "fu" none =
      .ok (.childAddView 4 { sampleReq with typeParam := some "7" }
        (add_preserved_filters (urlencode_type 7) "fu") none) :=
  add_view_delegates_to_child sampleAdmin
    { sampleReq with typeParam := some "7" } "fu" none 7 4 rfl (by decide) rfl

/-- Claim C3 (code-bug evidence): `self._child_models` is a dict, so a
failed subscript raises `KeyError`; the `except IndexError` clause of
`_get_real_admin` does not match it, and the intended `Http404` is never
raised. On `sampleAdmin`, whose mapping has keys 7 and 8 only, the unknown
nonzero type value 99 makes `_get_real_admin` — directly and as used by
`add_view` (type=99), `change_view` (object 3 has discriminator 99) and
`subclass_view` (path 3/change) — raise `KeyError`, not `Http404`. -/
theorem get_real_admin_unknown_type_raises_keyerror :
    _get_real_admin sampleAdmin 99 = .error .keyError
    ∧ add_view sampleAdmin { sampleReq with typeParam := some "99" } "" none =
        .error .keyError
    ∧ change_view sampleAdmin sampleReq 3 0 = .error .keyError
    ∧ subclass_view sampleAdmin sampleReq "3/change" = .error .keyError
    ∧ PyExn.keyError.kind ≠ ExnKind.http404 :=
  ⟨rfl, rfl, rfl, rfl, by decide⟩

/-- Claim C4: when no base-model object with id `object_id` exists,
`_get_type_by_object_id` raises `Http404`, and so do `change_view`,
`changeform_view` and `subclass_view` (for a path whose head parses to
that id); no child admin view is invoked. -/
theorem missing_object_raises_http404 (a : ParentAdmin) (req : Request)
    (object_id : Int) (varargs : Nat)
    (h : a.base_model_db object_id = none) :
    _get_type_by_object_id a object_id = .error (.http404 "")
    ∧ change_view a req object_id varargs = .error (.http404 "")
    ∧ changeform_view a req (some object_id) varargs = .error (.http404 "")
    ∧ (∀ path, get_type_param req = .ok 0 →
        str_to_int (path_head path) = some object_id →
        subclass_view a req path = .error (.http404 "")) := by
  have h1 : _get_type_by_object_id a object_id = .error (.http404 "") := by
    simp only [_get_type_by_object_id, h]
  refine ⟨h1, ?_, ?_, ?_⟩
  · simp only [change_view, h1]
  · simp only [changeform_view, h1]
  · intro path hq hp
    simp only [subclass_view, subclass_type, hq, h1]
    simp [hp, h1]

theorem missing_object_raises_http404_witness :
    _get_type_by_object_id sampleAdmin 5 = .error (.http404 "")
    ∧ change_view sampleAdmin sampleReq 5 0 = .error (.http404 "")
    ∧ changeform_view sampleAdmin sampleReq (some 5) 0 = .error (.http404 "")
    ∧ subclass_view sampleAdmin sampleReq "5/change" = .error (.http404 "") := by
  have h := missing_object_raises_http404 sampleAdmin sampleReq 5 0 rfl
  exact ⟨h.1, h.2.1, h.2.2.1, h.2.2.2 "5/change" rfl rfl⟩

/-- Claim C5: for a request without add permission, `add_type_view` raises
`PermissionDenied`; nothing is rendered and no redirect is issued. -/
theorem add_type_view_requires_add_permission (a : ParentAdmin)
    (req : Request) (form_url : String)
    (h : req.hasAddPermission = false) :
    add_type_view a req form_url = .error .permissionDenied := by
  simp [add_type_view, h]

theorem add_type_view_requires_add_permission_witness :
    add_type_view sampleAdmin { sampleReq with hasAddPermission := false } "" =
      .error .permissionDenied :=
  add_type_view_requires_add_permission sampleAdmin
    { sampleReq with hasAddPermission := false } "" rfl

/-- Claim C6: misconfiguration is signalled with `RuntimeError`:
`register_child` after setup raises it with the child site registry (and
all other state) unchanged, and `_get_real_admin` raises it when the child
model of a known type value has no admin registered in the child site. -/
theorem misconfiguration_raises_runtime_error (a : ParentAdmin) :
    (a._is_setup = true → ∀ model model_admin : Nat,
      register_child a model model_admin =
        (a, some (.runtimeError
          "The admin model cant be registered anymore at this point.")))
    ∧ (∀ (t : Int) (d : List (Int × Nat × Nat)) (model adm_cls : Nat),
        a._child_models = some d →
        d.lookup t = some (model, adm_cls) →
        a._child_admin_site_registry.lookup model = none →
        _get_real_admin a t = .error (.runtimeError
          ("No child admin site was registered for a " ++ toString model ++ " model."))) := by
  constructor
  · intro hs model model_admin
    simp only [register_child, hs, if_true]
  · intro t d model adm_cls hd hl hr
    simp only [_get_real_admin, hd, hl, hr]

theorem misconfiguration_raises_runtime_error_witness :
    register_child sampleAdmin 3 4 =
      (sampleAdmin, some (.runtimeError
        "The admin model cant be registered anymore at this point."))
    ∧ _get_real_admin unregAdmin 7 = .error (.runtimeError
        "No child admin site was registered for a 3 model.") :=
  ⟨(misconfiguration_raises_runtime_error sampleAdmin).1 rfl 3 4,
   (misconfiguration_raises_runtime_error unregAdmin).2 7
     [(7, 3, 4), (8, 5, 6)] 3 4 rfl rfl rfl⟩

/-- Claim C8: for a `subclass_view` request whose `type` parameter is
absent or zero: when the path segment before the first slash parses as a
numeric object id, the type is resolved from that object's discriminator
field and the path is dispatched through the matching child admin's URL
resolver; when the segment is not numeric, `Http404` is raised. -/
theorem subclass_view_numeric_head_dispatch (a : ParentAdmin)
    (req : Request) (path : String)
    (h0 : get_type_param req = .ok 0) :
    (∀ (object_id t : Int) (adm : Nat),
      str_to_int (path_head path) = some object_id →
      a.base_model_db object_id = some t →
      a.type_field_spec = .valid →
      _get_real_admin a t = .ok adm →
      a.resolve adm path = true →
      subclass_view a req path = .ok (.dispatched adm path req))
    ∧ (str_to_int (path_head path) = none →
      subclass_view a req path = .error (.http404
        ("No type parameter, unable to find admin subclass for path " ++ path ++ "."))) := by
  constructor
  · intro object_id t adm hp hobj hfield hadm hres
    simp only [subclass_view, subclass_type, h0, hp, _get_type_by_object_id,
      hobj, hfield, if_true, hadm, hres]
    simp [hp, hobj, hfield, hadm, hres]
  · intro hp
    simp only [subclass_view, subclass_type, h0]
    simp [hp]

theorem subclass_view_numeric_head_dispatch_witness :
    subclass_view sampleAdmin sampleReq "1/change" =
      .ok (.dispatched 4 "1/change" sampleReq)
    ∧ subclass_view sampleAdmin sampleReq "+1/change" =
      .ok (.dispatched 4 "+1/change" sampleReq)
    ∧ subclass_view sampleAdmin sampleReq "abc" = .error (.http404
        "No type parameter, unable to find admin subclass for path abc.") :=
  ⟨(subclass_view_numeric_head_dispatch sampleAdmin sampleReq "1/change" rfl).1
      1 7 4 rfl rfl rfl rfl rfl,
   (subclass_view_numeric_head_dispatch sampleAdmin sampleReq "+1/change" rfl).1
      1 7 4 rfl rfl rfl rfl rfl,
   (subclass_view_numeric_head_dispatch sampleAdmin sampleReq "abc" rfl).2 rfl⟩

/-- Claim C9: for a permitted request, when exactly one child type choice
exists, `add_type_view` immediately redirects to `?type=<choice>` with the
original query string appended, without rendering the selection form. -/
theorem add_type_view_single_choice_redirects (a : ParentAdmin)
    (req : Request) (form_url : String) (k : Int) (nm : String)
    (hperm : req.hasAddPermission = true)
    (hch : get_child_type_choices a = .ok [(k, nm)]) :
    add_type_view a req form_url =
      .ok (.redirect ("?type=" ++ toString k ++ extra_qs req)) := by
  simp only [add_type_view, hperm, hch]
  simp [List.headI]

theorem add_type_view_single_choice_redirects_witness :
    add_type_view singleChildAdmin { sampleReq with queryString := "x=y" } "" =
      .ok (.redirect "?type=7&x=y") := by
  have h := add_type_view_single_choice_redirects singleChildAdmin
    { sampleReq with queryString := "x=y" } "" 7 "model 3" rfl rfl
  simpa using h

/-- Claim C10: `_lazy_setup` is idempotent and `_is_setup` is monotone:
once `_is_setup` holds, `_lazy_setup` returns immediately with the whole
state — in particular `_child_models` and the child site registry —
unchanged; `register_child` never changes `_is_setup` (the views do not
mutate the admin state at all, as their embedding as state-free functions
records). -/
theorem lazy_setup_idempotent_and_setup_monotone (a : ParentAdmin) :
    (a._is_setup = true → _lazy_setup a = (a, none))
    ∧ (∀ model model_admin : Nat,
        ((register_child a model model_admin).1)._is_setup = a._is_setup)
    ∧ (a._is_setup = true → ((_lazy_setup a).1)._is_setup = true) := by
  refine ⟨?_, ?_, ?_⟩
  · intro h
    simp only [_lazy_setup, h, if_true]
  · intro model model_admin
    unfold register_child
    repeat' split
    all_goals rfl
  · intro h
    simp only [_lazy_setup, h, if_true]

theorem lazy_setup_idempotent_and_setup_monotone_witness :
    _lazy_setup sampleAdmin = (sampleAdmin, none)
    ∧ ((register_child sampleAdmin 3 4).1)._is_setup = sampleAdmin._is_setup
    ∧ ((_lazy_setup sampleAdmin).1)._is_setup = true := by
  have h := lazy_setup_idempotent_and_setup_monotone sampleAdmin
  exact ⟨h.1 rfl, h.2.1 3 4, h.2.2 rfl⟩

/-! Which exception classes each operation can raise. -/

theorem get_type_param_error_kind (req : Request) (e : PyExn)
    (h : get_type_param req = .error e) : e.kind = .valueError := by
  unfold get_type_param at h
  repeat' split at h
  all_goals (try cases h)
  all_goals decide

theorem get_child_models_error_kind (a : ParentAdmin) (e : PyExn)
    (h : get_child_models a = .error e) : e.kind = .notImplementedError := by
  unfold get_child_models at h
  split at h
  all_goals (try cases h)
  all_goals decide

theorem get_child_type_choices_error_kind (a : ParentAdmin) (e : PyExn)
    (h : get_child_type_choices a = .error e) : e.kind = .notImplementedError := by
  unfold get_child_type_choices at h
  cases hgc : get_child_models a with
  | error e2 =>
    simp only [hgc] at h
    cases h
    exact get_child_models_error_kind a e hgc
  | ok cm => simp only [hgc] at h; cases h

theorem get_type_by_object_id_error_kind (a : ParentAdmin) (oid : Int)
    (e : PyExn) (h : _get_type_by_object_id a oid = .error e) :
    e.kind = .http404 ∨ e.kind = .notImplementedError ∨
      e.kind = .typeError := by
  unfold _get_type_by_object_id at h
  repeat' split at h
  all_goals (try cases h)
  all_goals decide

theorem get_real_admin_error_kind (a : ParentAdmin) (t : Int) (e : PyExn)
    (h : _get_real_admin a t = .error e) :
    e.kind = .attributeError ∨ e.kind = .keyError ∨ e.kind = .runtimeError := by
  unfold _get_real_admin at h
  repeat' split at h
  all_goals (try cases h)
  all_goals (first | decide | simp_all [PyExn.kind])

theorem site_register_error_kind (reg : List (Nat × Nat)) (m ma : Nat)
    (e : PyExn) (h : site_register reg m ma = .error e) :
    e.kind = .alreadyRegistered := by
  unfold site_register at h
  split at h
  · cases h
    rfl
  · cases h

theorem register_child_error_kind (a : ParentAdmin) (m ma : Nat) (e : PyExn)
    (h : (register_child a m ma).2 = some e) :
    e.kind = .runtimeError ∨ e.kind = .typeError ∨
      e.kind = .alreadyRegistered := by
  unfold register_child at h
  repeat' split at h
  all_goals (try cases h)
  all_goals try (rename_i heq; exact Or.inr (Or.inr (site_register_error_kind _ m ma e heq)))
  all_goals (first | decide | simp [PyExn.kind])

theorem register_children_error_kind (cm : List (Int × Nat × Nat)) :
    ∀ (a : ParentAdmin) (e : PyExn),
    (register_children a cm).2 = some e →
    e.kind = .runtimeError ∨ e.kind = .typeError ∨
      e.kind = .alreadyRegistered := by
  induction cm with
  | nil =>
    intro a e h
    simp [register_children] at h
  | cons hd tl ih =>
    intro a e h
    obtain ⟨k, m, ma⟩ := hd
    simp only [register_children] at h
    cases hrc : register_child a m ma with
    | mk a2 oe =>
      cases oe with
      | none =>
        rw [hrc] at h
        exact ih a2 e h
      | some e2 =>
        rw [hrc] at h
        simp at h
        subst h
        exact register_child_error_kind a m ma e2 (by rw [hrc])

theorem lazy_setup_error_kind (a a' : ParentAdmin) (e : PyExn)
    (h : _lazy_setup a = (a', some e)) :
    e.kind = .notImplementedError ∨ e.kind = .runtimeError ∨
      e.kind = .typeError ∨ e.kind = .alreadyRegistered := by
  unfold _lazy_setup at h
  split at h
  · simp at h
  · split at h
    · next e2 heq =>
        have he : e2 = e := by simpa using congrArg Prod.snd h
        subst he
        exact Or.inl (get_child_models_error_kind a e2 heq)
    · next cm heq =>
        split at h
        · next a2 e2 hrc =>
            have he : e2 = e := by simpa using congrArg Prod.snd h
            subst he
            exact Or.inr (register_children_error_kind cm a e2 (by rw [hrc]))
        · next a2 hrc => simp at h

theorem add_type_view_error_kind (a : ParentAdmin) (req : Request)
    (fu : String) (e : PyExn) (h : add_type_view a req fu = .error e) :
    e.kind = .permissionDenied ∨ e.kind = .notImplementedError ∨
      e.kind = .indexError := by
  unfold add_type_view at h
  split at h
  · cases h
    decide
  · split at h
    · next e2 heq =>
        cases h
        exact Or.inr (Or.inl (get_child_type_choices_error_kind a e heq))
    · next choices heq =>
        repeat' split at h
        all_goals (try cases h)
        all_goals decide

theorem add_view_error_kind (a : ParentAdmin) (req : Request) (fu : String)
    (ec : Option Nat) (e : PyExn) (h : add_view a req fu ec = .error e) :
    e.kind = .valueError ∨ e.kind = .permissionDenied ∨
      e.kind = .notImplementedError ∨ e.kind = .indexError ∨
      e.kind = .attributeError ∨ e.kind = .keyError ∨
      e.kind = .runtimeError := by
  unfold add_view at h
  split at h
  · next e2 heq =>
      cases h
      have := get_type_param_error_kind req e heq
      tauto
  · next tv heq =>
      split at h
      · have := add_type_view_error_kind a req "" e h
        tauto
      · split at h
        · next e2 heq2 =>
            cases h
            have := get_real_admin_error_kind a tv e heq2
            tauto
        · next adm heq2 => cases h

theorem change_view_error_kind (a : ParentAdmin) (req : Request)
    (oid : Int) (va : Nat) (e : PyExn)
    (h : change_view a req oid va = .error e) :
    e.kind = .http404 ∨ e.kind = .notImplementedError ∨
      e.kind = .typeError ∨ e.kind = .attributeError ∨
      e.kind = .keyError ∨ e.kind = .runtimeError := by
  unfold change_view at h
  split at h
  · next e2 heq =>
      cases h
      have := get_type_by_object_id_error_kind a oid e heq
      tauto
  · next t heq =>
      split at h
      · next e2 heq2 =>
          cases h
          have := get_real_admin_error_kind a t e heq2
          tauto
      · next adm heq2 => cases h

theorem changeform_view_error_kind (a : ParentAdmin) (req : Request)
    (oid : Option Int) (va : Nat) (e : PyExn)
    (h : changeform_view a req oid va = .error e) :
    e.kind = .http404 ∨ e.kind = .notImplementedError ∨
      e.kind = .typeError ∨ e.kind = .attributeError ∨
      e.kind = .keyError ∨ e.kind = .runtimeError := by
  unfold changeform_view at h
  split at h
  · next o =>
      split at h
      · next e2 heq =>
          cases h
          have := get_type_by_object_id_error_kind a o e heq
          tauto
      · next t heq =>
          split at h
          · next e2 heq2 =>
              cases h
              have := get_real_admin_error_kind a t e heq2
              tauto
          · next adm heq2 => cases h
  · cases h

theorem subclass_type_error_kind (a : ParentAdmin) (t0 : Int) (p : String)
    (e : PyExn) (h : subclass_type a t0 p = .error e) :
    e.kind = .http404 ∨ e.kind = .notImplementedError ∨
      e.kind = .typeError := by
  unfold subclass_type at h
  split at h
  · split at h
    · cases h
      exact Or.inl rfl
    · next oid heq =>
        exact get_type_by_object_id_error_kind a oid e h
  · cases h

theorem subclass_view_error_kind (a : ParentAdmin) (req : Request)
    (p : String) (e : PyExn) (h : subclass_view a req p = .error e) :
    e.kind = .valueError ∨ e.kind = .http404 ∨
      e.kind = .notImplementedError ∨ e.kind = .typeError ∨
      e.kind = .attributeError ∨ e.kind = .keyError ∨
      e.kind = .runtimeError := by
  unfold subclass_view at h
  split at h
  · next e2 heq =>
      cases h
      have := get_type_param_error_kind req e heq
      tauto
  · next t0 heq =>
      split at h
      · next e2 heq2 =>
          cases h
          have := subclass_type_error_kind a t0 p e heq2
          tauto
      · next t heq2 =>
          split at h
          · next e2 heq3 =>
              cases h
              have := get_real_admin_error_kind a t e heq3
              tauto
          · next adm heq3 =>
              split at h
              · cases h
              · cases h
                exact Or.inr (Or.inl rfl)

/-- Claim C7 counterexample: with the `child_models` attribute unset, the
operation `add_type_view` (through its helper `get_child_models`) raises
`NotImplementedError`, an exception outside the claimed taxonomy of
`Http404`, `PermissionDenied` and `RuntimeError`. -/
theorem add_type_view_raises_outside_taxonomy :
    add_type_view noChildrenAdmin sampleReq "" =
      .error (.notImplementedError "Implement get_child_models() or child_models")
    ∧ (PyExn.notImplementedError
        "Implement get_child_models() or child_models").kind ≠ ExnKind.http404
    ∧ (PyExn.notImplementedError
        "Implement get_child_models() or child_models").kind ≠ ExnKind.permissionDenied
    ∧ (PyExn.notImplementedError
        "Implement get_child_models() or child_models").kind ≠ ExnKind.runtimeError :=
  ⟨rfl, by decide, by decide, by decide⟩

/-- Claim C7 (amended): besides `Http404`, `PermissionDenied` and
`RuntimeError`, the operations can raise `NotImplementedError`,
`TypeError`, `ValueError`, `KeyError`, `IndexError`, `AttributeError` and
`AlreadyRegistered`; no operation raises outside this widened taxonomy.
The theorem proves, per operation, containment (an upper bound) in the
operation-specific subset: `register_child` raises at most `RuntimeError`,
`TypeError` or `AlreadyRegistered`; `_lazy_setup` at most those plus
`NotImplementedError`; `add_type_view` at most `PermissionDenied`,
`NotImplementedError` or `IndexError`; `add_view` at most `ValueError`
(malformed type parameter), the `add_type_view` kinds, or the dispatch
kinds `AttributeError`, `KeyError`, `RuntimeError`; `change_view` and
`changeform_view` at most `Http404`, `NotImplementedError`, `TypeError`
(from `getattr(obj, None)` with `type_field_name` unset, uncaught by
`except AttributeError`), `AttributeError`, `KeyError` or `RuntimeError`;
`subclass_view` at most those plus `ValueError`. -/
theorem operations_exception_kinds :
    (∀ (a : ParentAdmin) (m ma : Nat) (e : PyExn),
      (register_child a m ma).2 = some e →
      e.kind = .runtimeError ∨ e.kind = .typeError ∨
        e.kind = .alreadyRegistered)
    ∧ (∀ (a a' : ParentAdmin) (e : PyExn),
      _lazy_setup a = (a', some e) →
      e.kind = .notImplementedError ∨ e.kind = .runtimeError ∨
        e.kind = .typeError ∨ e.kind = .alreadyRegistered)
    ∧ (∀ (a : ParentAdmin) (req : Request) (fu : String) (e : PyExn),
      add_type_view a req fu = .error e →
      e.kind = .permissionDenied ∨ e.kind = .notImplementedError ∨
        e.kind = .indexError)
    ∧ (∀ (a : ParentAdmin) (req : Request) (fu : String) (ec : Option Nat)
        (e : PyExn), add_view a req fu ec = .error e →
      e.kind = .valueError ∨ e.kind = .permissionDenied ∨
        e.kind = .notImplementedError ∨ e.kind = .indexError ∨
        e.kind = .attributeError ∨ e.kind = .keyError ∨
        e.kind = .runtimeError)
    ∧ (∀ (a : ParentAdmin) (req : Request) (oid : Int) (va : Nat)
        (e : PyExn), change_view a req oid va = .error e →
      e.kind = .http404 ∨ e.kind = .notImplementedError ∨
        e.kind = .typeError ∨ e.kind = .attributeError ∨
        e.kind = .keyError ∨ e.kind = .runtimeError)
    ∧ (∀ (a : ParentAdmin) (req : Request) (oid : Option Int) (va : Nat)
        (e : PyExn), changeform_view a req oid va = .error e →
      e.kind = .http404 ∨ e.kind = .notImplementedError ∨
        e.kind = .typeError ∨ e.kind = .attributeError ∨
        e.kind = .keyError ∨ e.kind = .runtimeError)
    ∧ (∀ (a : ParentAdmin) (req : Request) (p : String) (e : PyExn),
      subclass_view a req p = .error e →
      e.kind = .valueError ∨ e.kind = .http404 ∨
        e.kind = .notImplementedError ∨ e.kind = .typeError ∨
        e.kind = .attributeError ∨ e.kind = .keyError ∨
        e.kind = .runtimeError) :=
  ⟨register_child_error_kind, lazy_setup_error_kind, add_type_view_error_kind,
   add_view_error_kind, change_view_error_kind, changeform_view_error_kind,
   subclass_view_error_kind⟩

theorem operations_exception_kinds_witness :
    (PyExn.runtimeError
        "The admin model cant be registered anymore at this point.").kind
        = ExnKind.runtimeError
      ∨ (PyExn.runtimeError
        "The admin model cant be registered anymore at this point.").kind
        = ExnKind.typeError
      ∨ (PyExn.runtimeError
        "The admin model cant be registered anymore at this point.").kind
        = ExnKind.alreadyRegistered :=
  operations_exception_kinds.1 sampleAdmin 3 4 _ rfl

end ProxyAdmin
